import Mathlib

/-!
Shallow embedding of the BME680 MicroPython driver (bme680.py).

Numeric model: Python floats are modelled as exact rationals (ℚ); the
claims under verification concern formula structure, caching policy and
control flow, not floating-point rounding.  Python `int(x)` truncates
toward zero and float `%` is floor-based; both are modelled explicitly.
Uncaught Python exceptions are modelled with `Except`/error results.
-/

namespace BME680

/-- Python exception kinds that the modelled code paths can raise. -/
inductive PyErr
  | typeError
  | indexError
  | runtimeError
  | attributeError
deriving DecidableEq, Repr

/-- Python int() applied to a float: truncation toward zero. -/
def pyInt (q : ℚ) : ℤ := if 0 ≤ q then ⌊q⌋ else ⌈q⌉

/-- Python float modulo: floor-based remainder. -/
def pyMod (a b : ℚ) : ℚ := a - b * ⌊a / b⌋

/-- struct B field: unsigned 8-bit. -/
def u8 (b : ℕ) : ℤ := (b % 256 : ℤ)

/-- struct b field: signed 8-bit. -/
def s8 (b : ℕ) : ℤ := if b % 256 < 128 then (b % 256 : ℤ) else (b % 256 : ℤ) - 256

/-- struct H field: unsigned 16-bit little-endian. -/
def u16 (lo hi : ℕ) : ℤ := u8 lo + 256 * u8 hi

/-- struct h field: signed 16-bit little-endian. -/
def s16 (lo hi : ℕ) : ℤ := if u16 lo hi < 32768 then u16 lo hi else u16 lo hi - 65536

def BME680_CHIPID : ℕ := 0x61
def BME680_REG_CTRL_GAS : ℕ := 0x71
def BME680_REG_CTRL_HUM : ℕ := 0x72
def BME680_REG_CTRL_MEAS : ℕ := 0x74
def BME680_REG_CONFIG : ℕ := 0x75
def BME680_REG_MEAS_STATUS : ℕ := 0x1D
def BME680_RUNGAS : ℕ := 0x10

def BME680_SAMPLERATES : List ℕ := [0, 1, 2, 4, 8, 16]
def BME680_FILTERSIZES : List ℕ := [0, 1, 3, 7, 15, 31, 63, 127]

def LOOKUP_TABLE_1 : List ℚ :=
  [2147483647, 2147483647, 2147483647, 2147483647, 2147483647,
   2126008810, 2147483647, 2130303777, 2147483647, 2147483647,
   2143188679, 2136746228, 2147483647, 2126008810, 2147483647,
   2147483647]

def LOOKUP_TABLE_2 : List ℚ :=
  [4096000000, 2048000000, 1024000000, 512000000, 255744255, 127110228,
   64000000, 32258064, 16016016, 8000000, 4000000, 2000000, 1000000,
   500000, 250000, 125000]

/-- read24: parse an unsigned 24-bit value as a float (exact here). -/
def read24 (arr : List ℕ) : ℚ :=
  arr.foldl (fun ret b => ret * 256 + (((b &&& 0xFF : ℕ) : ℤ) : ℚ)) 0

/-- Instance state of Adafruit_BME680 relevant to the claims. -/
structure State where
  detected : Bool
  filter : ℕ
  temp_oversample : ℕ
  pressure_oversample : ℕ
  humidity_oversample : ℕ
  temp_calibration : List ℚ
  pressure_calibration : List ℚ
  humidity_calibration : List ℚ
  gas_calibration : List ℚ
  sw_err : ℚ
  sea_level_pressure : ℚ
  last_pres : ℚ
  adc_pres : ℚ
  adc_temp : ℚ
  adc_hum : ℕ
  adc_gas : ℤ
  gas_range : ℕ
  t_fine : ℤ
  last_reading : ℕ
  min_refresh_time : ℕ
deriving DecidableEq, Repr

/-- A bus operation issued by the driver (observable transport traffic). -/
inductive BusOp
  | rd (register length : ℕ)
  | wr (register : ℕ) (values : List ℕ)
deriving DecidableEq, Repr

/-- Transport responses consumed by one _perform_reading call: the
CTRL_MEAS read-back, and the successive 15-byte status-block reads
(none models a transport read failure returning None). -/
structure Bus where
  ctrl_meas : Option ℕ
  status : List (Option (List ℕ))
deriving DecidableEq, Repr

/-- Outcome of _perform_reading. -/
inductive PRResult
  | absent
  | hang
  | err (e : PyErr)
  | ok
deriving DecidableEq, Repr

/-- Outcome of a measurement accessor. -/
inductive AccResult
  | val (q : ℚ)
  | absent
  | hang
  | err (e : PyErr)
deriving DecidableEq, Repr

/-- is_detected: chip id read result to detected flag (bme680.py lines
281-301).  none models a failed chip-id read. -/
def is_detected (chip_id : Option ℕ) : Bool :=
  match chip_id with
  | none => false
  | some c => c == BME680_CHIPID

/-- The polling loop of _perform_reading: read the 15-byte status block
until bit 0x80 of byte 0 is set.  A none response makes the code evaluate
data[0] on None, an uncaught TypeError.  The second component counts the
reads issued.  An exhausted response list models a loop still running
(the source loop is unbounded); no claim depends on that case. -/
def poll_read : List (Option (List ℕ)) → Except PyErr (Option (List ℕ)) × ℕ
  | [] => (Except.ok none, 0)
  | none :: _ => (Except.error PyErr.typeError, 1)
  | some d :: rest =>
      if d.getD 0 0 &&& 0x80 ≠ 0 then (Except.ok (some d), 1)
      else ((poll_read rest).1, (poll_read rest).2 + 1)

/-- State update performed by a successful _perform_reading: store the raw
sample decoded from the 15-byte block and derive t_fine from this cycle's
raw temperature code (bme680.py lines 332-345). -/
def reading_state (st : State) (d : List ℕ) (now : ℕ) : State :=
  let adc_pres := read24 [d.getD 2 0, d.getD 3 0, d.getD 4 0] / 16
  let adc_temp := read24 [d.getD 5 0, d.getD 6 0, d.getD 7 0] / 16
  let adc_hum := d.getD 8 0 * 256 + d.getD 9 0
  let adc_gas := pyInt (((d.getD 13 0 * 256 + d.getD 14 0 : ℕ) : ℚ) / 64)
  let gas_range := d.getD 14 0 &&& 0x0F
  let var1 := adc_temp / 8 - st.temp_calibration.getD 0 0 * 2
  let var2 := var1 * st.temp_calibration.getD 1 0 / 2048
  let var3 := (var1 / 2) * (var1 / 2) / 4096
  let var3a := var3 * st.temp_calibration.getD 2 0 * 16 / 16384
  { st with
    adc_pres := adc_pres, adc_temp := adc_temp, adc_hum := adc_hum,
    adc_gas := adc_gas, gas_range := gas_range,
    t_fine := pyInt (var2 + var3a), last_reading := now }

/-- Bus writes and reads issued by _perform_reading before and during the
poll loop, in program order (bme680.py lines 314-331). -/
def perform_reading_trace (st : State) (c : ℕ) (polls : ℕ) : List BusOp :=
  [BusOp.wr BME680_REG_CONFIG [st.filter <<< 2],
   BusOp.wr BME680_REG_CTRL_MEAS
     [(st.temp_oversample <<< 5) ||| (st.pressure_oversample <<< 2)],
   BusOp.wr BME680_REG_CTRL_HUM [st.humidity_oversample],
   BusOp.wr BME680_REG_CTRL_GAS [BME680_RUNGAS],
   BusOp.rd BME680_REG_CTRL_MEAS 1,
   BusOp.wr BME680_REG_CTRL_MEAS [(c &&& 0xFC) ||| 0x01]]
  ++ List.replicate polls (BusOp.rd BME680_REG_MEAS_STATUS 15)

/-- _perform_reading (bme680.py lines 303-346).  Returns the outcome, the
state after the call, and the bus traffic issued.  When the sensor was not
detected the method returns None at once, with no bus traffic.  A None
result of the CTRL_MEAS read-back makes ctrl & 0xFC raise TypeError. -/
def perform_reading (st : State) (bus : Bus) (now : ℕ) :
    PRResult × State × List BusOp :=
  if st.detected = false then (PRResult.absent, st, [])
  else
    match bus.ctrl_meas with
    | none =>
        (PRResult.err PyErr.typeError, st,
         [BusOp.wr BME680_REG_CONFIG [st.filter <<< 2],
          BusOp.wr BME680_REG_CTRL_MEAS
            [(st.temp_oversample <<< 5) ||| (st.pressure_oversample <<< 2)],
          BusOp.wr BME680_REG_CTRL_HUM [st.humidity_oversample],
          BusOp.wr BME680_REG_CTRL_GAS [BME680_RUNGAS],
          BusOp.rd BME680_REG_CTRL_MEAS 1])
    | some c =>
        match poll_read bus.status with
        | (Except.error e, k) =>
            (PRResult.err e, st, perform_reading_trace st c k)
        | (Except.ok none, k) =>
            (PRResult.hang, st, perform_reading_trace st c k)
        | (Except.ok (some d), k) =>
            (PRResult.ok, reading_state st d now, perform_reading_trace st c k)

/-- Compensated temperature formula (bme680.py line 191). -/
def temp_calc (st : State) : ℚ :=
  (((st.t_fine : ℚ) * 5 + 128) / 256) / 100

/-- The temperature accessor (bme680.py lines 182-193). -/
def temperature (st : State) (bus : Bus) (now : ℕ) :
    AccResult × State × List BusOp :=
  match perform_reading st bus now with
  | (PRResult.absent, st1, tr) => (AccResult.absent, st1, tr)
  | (PRResult.hang, st1, tr) => (AccResult.hang, st1, tr)
  | (PRResult.err e, st1, tr) => (AccResult.err e, st1, tr)
  | (PRResult.ok, st1, tr) => (AccResult.val (temp_calc st1), st1, tr)

/-- Pressure compensation polynomial and the greater-than-1500 unit fix
(bme680.py lines 201-219).  ℚ division is total where Python float
division could raise ZeroDivisionError; the claims do not touch that. -/
def pressure_raw (st : State) : ℚ :=
  let pc := fun i => st.pressure_calibration.getD i 0
  let var1 := (st.t_fine : ℚ) / 2 - 64000
  let var2 := ((var1 / 4) * (var1 / 4)) / 2048
  let var2a := (var2 * pc 5) / 4
  let var2b := var2a + (var1 * pc 4 * 2)
  let var2c := (var2b / 4) + (pc 3 * 65536)
  let var1a := ((((var1 / 4) * (var1 / 4)) / 8192) * (pc 2 * 32) / 8) +
               ((pc 1 * var1) / 2)
  let var1b := var1a / 262144
  let var1c := ((32768 + var1b) * pc 0) / 32768
  let calc1 := 1048576 - st.adc_pres
  let calc2 := (calc1 - (var2c / 4096)) * 3125
  let calc3 := (calc2 / var1c) * 2
  let w1 := (pc 8 * (((calc3 / 8) * (calc3 / 8)) / 8192)) / 4096
  let w2 := ((calc3 / 4) * pc 7) / 8192
  let w3 := (((calc3 / 256) ^ 3) * pc 9) / 131072
  let calc4 := calc3 + ((w1 + w2 + w3 + (pc 6 * 128)) / 16)
  if calc4 > 1500 then calc4 / 100 else calc4

/-- Pressure plausibility policy (bme680.py lines 220-228): given the
computed value and the cached last-good pressure, return the value handed
to the caller and the cache after the call. -/
def pressure_policy (calc_pres last : ℚ) : ℚ × ℚ :=
  if calc_pres > 630 then (calc_pres, calc_pres)
  else if last > 0 then (last, last)
  else (calc_pres, last)

/-- The pressure accessor (bme680.py lines 195-228). -/
def pressure (st : State) (bus : Bus) (now : ℕ) :
    AccResult × State × List BusOp :=
  match perform_reading st bus now with
  | (PRResult.absent, st1, tr) => (AccResult.absent, st1, tr)
  | (PRResult.hang, st1, tr) => (AccResult.hang, st1, tr)
  | (PRResult.err e, st1, tr) => (AccResult.err e, st1, tr)
  | (PRResult.ok, st1, tr) =>
      let r := pressure_policy (pressure_raw st1) st1.last_pres
      (AccResult.val r.1, { st1 with last_pres := r.2 }, tr)

/-- Humidity compensation formula with the final clamp to 0..100
(bme680.py lines 236-254). -/
def humidity_calc (st : State) : ℚ :=
  let hc := fun i => st.humidity_calibration.getD i 0
  let temp_scaled := ((st.t_fine : ℚ) * 5 + 128) / 256
  let var1 := ((st.adc_hum : ℚ) - (hc 0 * 16)) - ((temp_scaled * hc 2) / 200)
  let var2 := (hc 1 *
      (((temp_scaled * hc 3) / 100) +
       (((temp_scaled * ((temp_scaled * hc 4) / 100)) / 64) / 100) + 16384)) / 1024
  let var3 := var1 * var2
  let var4a := hc 5 * 128
  let var4 := (var4a + ((temp_scaled * hc 6) / 100)) / 16
  let var5 := ((var3 / 16384) * (var3 / 16384)) / 1024
  let var6 := (var4 * var5) / 2
  let calc_hum := (((((var3 + var6) / 1024) * 1000) / 4096)) / 1000
  if calc_hum > 100 then 100 else if calc_hum < 0 then 0 else calc_hum

/-- The humidity accessor (bme680.py lines 230-255). -/
def humidity (st : State) (bus : Bus) (now : ℕ) :
    AccResult × State × List BusOp :=
  match perform_reading st bus now with
  | (PRResult.absent, st1, tr) => (AccResult.absent, st1, tr)
  | (PRResult.hang, st1, tr) => (AccResult.hang, st1, tr)
  | (PRResult.err e, st1, tr) => (AccResult.err e, st1, tr)
  | (PRResult.ok, st1, tr) => (AccResult.val (humidity_calc st1), st1, tr)

/-- Gas resistance formula (bme680.py lines 270-274).  The two fixed
16-entry tables are indexed with the stored gas_range; getD stands for
the indexing, shown in bounds by the C10 theorem. -/
def gas_calc (st : State) : ℤ :=
  let var1 := ((1340 + (5 * st.sw_err)) * LOOKUP_TABLE_1.getD st.gas_range 0) / 65536
  let var2 := (((st.adc_gas : ℚ) * 32768) - 16777216) + var1
  let var3 := (LOOKUP_TABLE_2.getD st.gas_range 0 * var1) / 512
  pyInt ((var3 + (var2 / 2)) / var2)

/-- The gas accessor (bme680.py lines 264-274). -/
def gas (st : State) (bus : Bus) (now : ℕ) :
    AccResult × State × List BusOp :=
  match perform_reading st bus now with
  | (PRResult.absent, st1, tr) => (AccResult.absent, st1, tr)
  | (PRResult.hang, st1, tr) => (AccResult.hang, st1, tr)
  | (PRResult.err e, st1, tr) => (AccResult.err e, st1, tr)
  | (PRResult.ok, st1, tr) => (AccResult.val ((gas_calc st1 : ℚ)), st1, tr)

/-- The altitude accessor (bme680.py lines 257-262).  powf stands for the
external math.pow.  When pressure returns the absent signal (sensor not
detected) the source evaluates pressure / self.sea_level_pressure where
sea_level_pressure was never assigned: an uncaught AttributeError (and
None as an operand would raise TypeError); either way no absent-value
signal is produced. -/
def altitude (powf : ℚ → ℚ → ℚ) (st : State) (bus : Bus) (now : ℕ) :
    AccResult × State × List BusOp :=
  match pressure st bus now with
  | (AccResult.val p, st1, tr) =>
      (AccResult.val (44330.77 * (1 - powf (p / st1.sea_level_pressure) 0.1902632)),
       st1, tr)
  | (AccResult.absent, st1, tr) => (AccResult.err PyErr.attributeError, st1, tr)
  | (AccResult.hang, st1, tr) => (AccResult.hang, st1, tr)
  | (AccResult.err e, st1, tr) => (AccResult.err e, st1, tr)

/-- pressure_oversample setter (bme680.py lines 139-144).  An error means
the exception propagates and the instance is left unchanged. -/
def pressure_oversample_set (st : State) (sample_rate : ℕ) : Except PyErr State :=
  if sample_rate ∈ BME680_SAMPLERATES then
    Except.ok { st with pressure_oversample := BME680_SAMPLERATES.indexOf sample_rate }
  else Except.error PyErr.runtimeError

/-- pressure_oversample getter (bme680.py lines 134-137). -/
def pressure_oversample_get (st : State) : ℕ :=
  BME680_SAMPLERATES.getD st.pressure_oversample 0

/-- humidity_oversample setter (bme680.py lines 151-156). -/
def humidity_oversample_set (st : State) (sample_rate : ℕ) : Except PyErr State :=
  if sample_rate ∈ BME680_SAMPLERATES then
    Except.ok { st with humidity_oversample := BME680_SAMPLERATES.indexOf sample_rate }
  else Except.error PyErr.runtimeError

/-- humidity_oversample getter (bme680.py lines 146-149). -/
def humidity_oversample_get (st : State) : ℕ :=
  BME680_SAMPLERATES.getD st.humidity_oversample 0

/-- temperature_oversample setter (bme680.py lines 163-168). -/
def temperature_oversample_set (st : State) (sample_rate : ℕ) : Except PyErr State :=
  if sample_rate ∈ BME680_SAMPLERATES then
    Except.ok { st with temp_oversample := BME680_SAMPLERATES.indexOf sample_rate }
  else Except.error PyErr.runtimeError

/-- temperature_oversample getter (bme680.py lines 158-161). -/
def temperature_oversample_get (st : State) : ℕ :=
  BME680_SAMPLERATES.getD st.temp_oversample 0

/-- filter_size setter (bme680.py lines 175-180).  The source stores
_BME680_FILTERSIZES[size] — the tuple indexed BY the requested value —
so an in-range value is stored translated and a value of 15 or more
raises IndexError, not the RuntimeError of the validation branch. -/
def filter_size_set (st : State) (size : ℕ) : Except PyErr State :=
  if size ∈ BME680_FILTERSIZES then
    match BME680_FILTERSIZES.get? size with
    | some v => Except.ok { st with filter := v }
    | none => Except.error PyErr.indexError
  else Except.error PyErr.runtimeError

/-- filter_size getter (bme680.py lines 170-173): tuple indexing by the
stored value, IndexError when out of range. -/
def filter_size_get (st : State) : Except PyErr ℕ :=
  match BME680_FILTERSIZES.get? st.filter with
  | some v => Except.ok v
  | none => Except.error PyErr.indexError

/-- BME680_I2C._write (bme680.py lines 412-422).  bus_ok models whether
the underlying writeto_mem call raises.  Returns the function result and
the list of (register, byte) pairs actually transmitted. -/
def i2c_write (register : ℕ) (values : List ℕ) (bus_ok : Bool) :
    Option ℕ × List (ℕ × ℕ) :=
  match values with
  | [] => (none, [])
  | v :: _ =>
      if bus_ok then (some 0, [(register, v &&& 0xFF)])
      else (none, [])

/-- struct.unpack of the calibration format hbBHhbBhhbbHhhBBBHbbbBbHhbb
(little-endian) on the 38-byte slice: 27 fields at cumulative offsets. -/
def struct_unpack_calib (s : List ℕ) : List ℤ :=
  let b := fun i => s.getD i 0
  [s16 (b 0) (b 1), s8 (b 2), u8 (b 3), u16 (b 4) (b 5), s16 (b 6) (b 7),
   s8 (b 8), u8 (b 9), s16 (b 10) (b 11), s16 (b 12) (b 13), s8 (b 14),
   s8 (b 15), u16 (b 16) (b 17), s16 (b 18) (b 19), s16 (b 20) (b 21),
   u8 (b 22), u8 (b 23), u8 (b 24), u16 (b 25) (b 26), s8 (b 27), s8 (b 28),
   s8 (b 29), u8 (b 30), s8 (b 31), u16 (b 32) (b 33), s16 (b 34) (b 35),
   s8 (b 36), s8 (b 37)]

/-- The four coefficient groups produced by _read_calibration. -/
structure Calib where
  temp_calibration : List ℚ
  pressure_calibration : List ℚ
  humidity_calibration : List ℚ
  gas_calibration : List ℚ
deriving DecidableEq, Repr

/-- _read_calibration decode (bme680.py lines 350-364) on the 41-byte
concatenation of the 25-byte and 16-byte coefficient blocks: slice bytes
[1:39], unpack 27 fields, coerce to float, select the index lists, then
apply the H1/H2 fix-up in source order (in h[1] += h[0] % 16 the first
element still holds its original value; only afterwards h[0] /= 16). -/
def read_calibration (c : List ℕ) : Calib :=
  let coeff := (struct_unpack_calib ((c.drop 1).take 38)).map (fun i => (i : ℚ))
  let temp := [23, 0, 1].map (fun x => coeff.getD x 0)
  let press := [3, 4, 5, 7, 8, 10, 9, 12, 13, 14].map (fun x => coeff.getD x 0)
  let hum := [17, 16, 18, 19, 20, 21, 22].map (fun x => coeff.getD x 0)
  let gasc := [25, 24, 26].map (fun x => coeff.getD x 0)
  let h1 := hum.getD 1 0 * 16 + pyMod (hum.getD 0 0) 16
  let h0 := hum.getD 0 0 / 16
  { temp_calibration := temp,
    pressure_calibration := press,
    humidity_calibration :=
      [h0, h1, hum.getD 2 0, hum.getD 3 0, hum.getD 4 0, hum.getD 5 0, hum.getD 6 0],
    gas_calibration := gasc }

/-- The calibration decode restated field by field, following the claimed
layout: one leading byte dropped, byte range [1:39], each coefficient an
explicit fixed-width field at its byte offset, the humidity fix-up with
the second element scaled by 16 plus the low nibble of the first, and the
first then divided by 16.  Compared against read_calibration for C5. -/
def read_calibration_claim (c : List ℕ) : Calib :=
  let b := fun i => ((c.drop 1).take 38).getD i 0
  let q := fun (z : ℤ) => (z : ℚ)
  { temp_calibration :=
      [q (u16 (b 32) (b 33)), q (s16 (b 0) (b 1)), q (s8 (b 2))],
    pressure_calibration :=
      [q (u16 (b 4) (b 5)), q (s16 (b 6) (b 7)), q (s8 (b 8)),
       q (s16 (b 10) (b 11)), q (s16 (b 12) (b 13)), q (s8 (b 15)),
       q (s8 (b 14)), q (s16 (b 18) (b 19)), q (s16 (b 20) (b 21)),
       q (u8 (b 22))],
    humidity_calibration :=
      [q (u16 (b 25) (b 26)) / 16,
       q (u8 (b 24)) * 16 + pyMod (q (u16 (b 25) (b 26))) 16,
       q (s8 (b 27)), q (s8 (b 28)), q (s8 (b 29)), q (u8 (b 30)),
       q (s8 (b 31))],
    gas_calibration := [q (s8 (b 36)), q (s16 (b 34) (b 35)), q (s8 (b 37))] }

/-- The temperature value the spec states: t_fine from the two nested
correction terms over the raw code and the three coefficients, then
Celsius = ((t_fine*5 + 128) / 256) / 100. -/
def temperature_claim (adc_temp tc0 tc1 tc2 : ℚ) : ℚ :=
  let var2 := ((adc_temp / 8 - tc0 * 2) * tc1) / 2048
  let var3 := ((((adc_temp / 8 - tc0 * 2) / 2) ^ 2) / 4096 * tc2 * 16) / 16384
  let t_fine := pyInt (var2 + var3)
  (((t_fine : ℚ) * 5 + 128) / 256) / 100

/-- t_fine as derived inside _perform_reading from the current cycle's raw
temperature bytes and the temperature coefficients. -/
def t_fine_from (tc : List ℚ) (d : List ℕ) : ℤ :=
  let adc_temp := read24 [d.getD 5 0, d.getD 6 0, d.getD 7 0] / 16
  let var1 := adc_temp / 8 - tc.getD 0 0 * 2
  let var2 := var1 * tc.getD 1 0 / 2048
  let var3 := (var1 / 2) * (var1 / 2) / 4096
  let var3a := var3 * tc.getD 2 0 * 16 / 16384
  pyInt (var2 + var3a)

/-- A concrete detected session state used by the witnesses. -/
def st0 : State :=
  { detected := true, filter := 2, temp_oversample := 4,
    pressure_oversample := 3, humidity_oversample := 2,
    temp_calibration := [26136, 26005, 3],
    pressure_calibration := [36283, -10430, 88, 7182, -123, -9, 30, 715, -2218, 12],
    humidity_calibration := [733, 1023, 0, 45, 14, 78, -38],
    gas_calibration := [33, -5969, 18],
    sw_err := 3, sea_level_pressure := 1013.25, last_pres := 0,
    adc_pres := 0, adc_temp := 0, adc_hum := 0, adc_gas := 0,
    gas_range := 0, t_fine := 0, last_reading := 0, min_refresh_time := 100 }

/-- The same session state with the detected flag cleared. -/
def stF : State := { st0 with detected := false }

/-- A concrete 15-byte status+data block with the new-data bit set. -/
def d0 : List ℕ :=
  [0x80, 0, 0x40, 0x12, 0x30, 0x75, 0xA3, 0x10, 0x61, 0x88, 0, 0, 0, 0x29, 0x8B]

/-- A concrete transport response set for one successful acquisition. -/
def bus0 : Bus := { ctrl_meas := some 0x54, status := [some d0] }

/-- A 41-byte calibration input of zeros. -/
def calibA : List ℕ := List.replicate 41 0

/-- The same 41 bytes except byte 38, outside the first 38 bytes. -/
def calibB : List ℕ := List.replicate 38 0 ++ [1, 0, 0]

/-- A successful acquisition: detected sensor, ctrl read-back answered,
first status read has the new-data bit set. -/
theorem perform_reading_ok (st : State) (c : ℕ) (d : List ℕ) (now : ℕ)
    (hdet : st.detected = true) (hflag : d.getD 0 0 &&& 0x80 ≠ 0) :
    perform_reading st { ctrl_meas := some c, status := [some d] } now =
      (PRResult.ok, reading_state st d now, perform_reading_trace st c 1) := by
  have hflag2 : ¬ (d[0]?.getD 0 &&& 0x80 = 0) := by
    simpa [List.getD] using hflag
  simp [perform_reading, hdet, poll_read, hflag2]

/-- Overwriting the stale t_fine before an acquisition does not change
what the acquisition produces: every field it stores is derived from the
fresh data block, never from the previous t_fine. -/
theorem reading_state_stale_t_fine (st : State) (z : ℤ) (d : List ℕ) (now : ℕ) :
    reading_state { st with t_fine := z } d now = reading_state st d now := rfl

/-- Looking an enumerated sample rate back up at its stored index returns
the rate itself. -/
theorem samplerates_roundtrip (w : ℕ) (hw : w ∈ BME680_SAMPLERATES) :
    BME680_SAMPLERATES.getD (BME680_SAMPLERATES.indexOf w) 0 = w := by
  fin_cases hw <;> rfl

/-- C1: the filter_size setter/getter round trip fails on the code.  The
setter stores the table entry AT index 3, namely 7, whence the getter
returns 127 instead of 3; and for the enumerated value 15 the setter
raises IndexError rather than succeeding, leaving the setting unchanged
only by way of an uncaught exception. -/
theorem filter_size_roundtrip_fails :
    filter_size_set st0 3 = Except.ok { st0 with filter := 7 } ∧
    filter_size_get { st0 with filter := 7 } = Except.ok 127 ∧
    filter_size_set st0 15 = Except.error PyErr.indexError ∧
    (127 : ℕ) ≠ 3 := by
  refine ⟨rfl, rfl, rfl, by decide⟩

/-- C6: each oversampling setter rejects a value outside the enumeration
{0,1,2,4,8,16} with the RuntimeError of the validation branch, leaving
the stored setting untouched, and accepts an enumerated value, after
which the matching getter returns that value. -/
theorem oversample_setters_validate (st : State) (v w : ℕ)
    (hv : v ∉ BME680_SAMPLERATES) (hw : w ∈ BME680_SAMPLERATES) :
    pressure_oversample_set st v = Except.error PyErr.runtimeError ∧
    temperature_oversample_set st v = Except.error PyErr.runtimeError ∧
    humidity_oversample_set st v = Except.error PyErr.runtimeError ∧
    pressure_oversample_set st w =
      Except.ok { st with pressure_oversample := BME680_SAMPLERATES.indexOf w } ∧
    pressure_oversample_get { st with pressure_oversample := BME680_SAMPLERATES.indexOf w } = w ∧
    temperature_oversample_set st w =
      Except.ok { st with temp_oversample := BME680_SAMPLERATES.indexOf w } ∧
    temperature_oversample_get { st with temp_oversample := BME680_SAMPLERATES.indexOf w } = w ∧
    humidity_oversample_set st w =
      Except.ok { st with humidity_oversample := BME680_SAMPLERATES.indexOf w } ∧
    humidity_oversample_get { st with humidity_oversample := BME680_SAMPLERATES.indexOf w } = w := by
  refine ⟨?_, ?_, ?_, ?_, ?_, ?_, ?_, ?_, ?_⟩ <;>
    simp [pressure_oversample_set, temperature_oversample_set, humidity_oversample_set,
          pressure_oversample_get, temperature_oversample_get, humidity_oversample_get,
          hv, hw, samplerates_roundtrip w hw]

theorem oversample_setters_validate_witness :
    (3 ∉ BME680_SAMPLERATES) ∧ (8 ∈ BME680_SAMPLERATES) ∧
    pressure_oversample_set st0 3 = Except.error PyErr.runtimeError ∧
    pressure_oversample_get { st0 with pressure_oversample := BME680_SAMPLERATES.indexOf 8 } = 8 := by
  refine ⟨by decide, by decide, ?_, ?_⟩
  · exact (oversample_setters_validate st0 3 8 (by decide) (by decide)).1
  · exact (oversample_setters_validate st0 3 8 (by decide) (by decide)).2.2.2.2.1

/-- C9: the I2C byte-write routine returns from inside its loop: on a
non-empty buffer it transmits only the first byte (masked to 8 bits) and
returns 0 when the bus write goes through, and in every case at most one
byte is put on the bus, whatever the buffer length. -/
theorem i2c_write_single_byte (register v : ℕ) (rest : List ℕ) (bus_ok : Bool) :
    i2c_write register (v :: rest) true = (some 0, [(register, v &&& 0xFF)]) ∧
    (i2c_write register (v :: rest) bus_ok).2.length ≤ 1 := by
  constructor
  · rfl
  · cases bus_ok <;> simp [i2c_write]

/-- C2: the pressure plausibility cache.  A computation above 630 hPa is
cached; a following computation at or below 630 hPa makes the accessor
hand back the cached first value; with nothing ever cached (the cache
still holds its initial 0) an implausible value is returned unmodified;
and on a successful reading the accessor returns exactly what this policy
yields on the freshly computed value and the cache. -/
theorem pressure_plausibility_cache (c1 c2 c0 last0 : ℚ) (st : State) (bus : Bus) (now : ℕ)
    (h1 : 630 < c1) (h2 : c2 ≤ 630) (hc : c0 ≤ 630) :
    (pressure_policy c2 (pressure_policy c1 last0).2).1 = c1 ∧
    (pressure_policy c0 0).1 = c0 ∧
    ((perform_reading st bus now).1 = PRResult.ok →
      (pressure st bus now).1 =
        AccResult.val (pressure_policy (pressure_raw (perform_reading st bus now).2.1)
          ((perform_reading st bus now).2.1).last_pres).1) := by
  refine ⟨?_, ?_, ?_⟩
  · have e1 : pressure_policy c1 last0 = (c1, c1) := by
      simp [pressure_policy, h1]
    rw [e1]
    have hn : ¬ c2 > 630 := not_lt.mpr h2
    have hp : (0:ℚ) < c1 := lt_trans (by norm_num) h1
    simp [pressure_policy, hn, hp]
  · have hn : ¬ c0 > 630 := not_lt.mpr hc
    simp [pressure_policy, hn]
  · intro hok
    rcases hpr : perform_reading st bus now with ⟨r, st1, tr⟩
    rw [hpr] at hok
    simp at hok
    subst hok
    simp [pressure, hpr]

theorem pressure_plausibility_cache_witness :
    (630:ℚ) < 700 ∧ (50:ℚ) ≤ 630 ∧ (50:ℚ) ≤ 630 ∧
    ((pressure_policy 50 (pressure_policy 700 0).2).1 = 700 ∧
     (pressure_policy 50 0).1 = 50 ∧
     ((perform_reading st0 bus0 0).1 = PRResult.ok →
       (pressure st0 bus0 0).1 =
         AccResult.val (pressure_policy (pressure_raw (perform_reading st0 bus0 0).2.1)
           ((perform_reading st0 bus0 0).2.1).last_pres).1)) :=
  ⟨by norm_num, by norm_num, by norm_num,
   pressure_plausibility_cache 700 50 50 0 st0 bus0 0 (by norm_num) (by norm_num) (by norm_num)⟩

/-- C3: when detection fails (failed chip-id read, or a chip id other
than 0x61) the detected flag is false, and with the flag false the
temperature, pressure, humidity and gas accessors all return the absent
signal with no bus traffic at all; the altitude accessor however raises
an uncaught exception on the absent pressure instead of returning the
absent signal. -/
theorem not_detected_accessors (st : State) (bus : Bus) (now : ℕ)
    (powf : ℚ → ℚ → ℚ) (chip : ℕ)
    (hdet : st.detected = false) (hchip : chip ≠ BME680_CHIPID) :
    is_detected none = false ∧
    is_detected (some chip) = false ∧
    temperature st bus now = (AccResult.absent, st, []) ∧
    pressure st bus now = (AccResult.absent, st, []) ∧
    humidity st bus now = (AccResult.absent, st, []) ∧
    gas st bus now = (AccResult.absent, st, []) ∧
    altitude powf st bus now = (AccResult.err PyErr.attributeError, st, []) := by
  have hpr : perform_reading st bus now = (PRResult.absent, st, []) := by
    simp [perform_reading, hdet]
  refine ⟨rfl, ?_, ?_, ?_, ?_, ?_, ?_⟩
  · simp [is_detected, hchip]
  · simp [temperature, hpr]
  · simp [pressure, hpr]
  · simp [humidity, hpr]
  · simp [gas, hpr]
  · simp [altitude, pressure, hpr]

theorem not_detected_accessors_witness :
    stF.detected = false ∧ (0x60 : ℕ) ≠ BME680_CHIPID ∧
    temperature stF bus0 0 = (AccResult.absent, stF, []) ∧
    altitude (fun _ _ => 0) stF bus0 0 = (AccResult.err PyErr.attributeError, stF, []) := by
  refine ⟨rfl, by decide, ?_, ?_⟩
  · exact (not_detected_accessors stF bus0 0 (fun _ _ => 0) 0x60 rfl (by decide)).2.2.1
  · exact (not_detected_accessors stF bus0 0 (fun _ _ => 0) 0x60 rfl (by decide)).2.2.2.2.2.2

/-- C8: when the 15-byte status+data read returns a transport failure
(None), _perform_reading evaluates data[0] on None and the resulting
TypeError propagates out of the accessor uncaught — the caller gets an
exception, not the absent signal the design asks for — while all cached
state (last-good pressure, raw sample fields, last-reading timestamp) is
left exactly as it was. -/
theorem transport_failure_acquisition (st : State) (c now : ℕ)
    (hdet : st.detected = true) :
    perform_reading st { ctrl_meas := some c, status := [none] } now =
      (PRResult.err PyErr.typeError, st, perform_reading_trace st c 1) ∧
    temperature st { ctrl_meas := some c, status := [none] } now =
      (AccResult.err PyErr.typeError, st, perform_reading_trace st c 1) ∧
    (temperature st { ctrl_meas := some c, status := [none] } now).1 ≠ AccResult.absent := by
  have hpr : perform_reading st { ctrl_meas := some c, status := [none] } now =
      (PRResult.err PyErr.typeError, st, perform_reading_trace st c 1) := by
    simp [perform_reading, hdet, poll_read]
  refine ⟨hpr, ?_, ?_⟩
  · simp [temperature, hpr]
  · simp [temperature, hpr]

theorem transport_failure_acquisition_witness :
    st0.detected = true ∧
    perform_reading st0 { ctrl_meas := some 0x54, status := [none] } 5 =
      (PRResult.err PyErr.typeError, st0, perform_reading_trace st0 0x54 1) ∧
    (temperature st0 { ctrl_meas := some 0x54, status := [none] } 5).1 ≠ AccResult.absent := by
  refine ⟨rfl, ?_, ?_⟩
  · exact (transport_failure_acquisition st0 0x54 5 rfl).1
  · exact (transport_failure_acquisition st0 0x54 5 rfl).2.2

/-- C4: after a successful reading, the temperature accessor returns the
claimed value: t_fine = int(var2 + var3) with var2 and var3 the two
nested correction terms over the raw temperature code and the three
temperature coefficients, and Celsius = ((t_fine*5 + 128) / 256) / 100. -/
theorem temperature_accessor_formula (st : State) (c : ℕ) (d : List ℕ) (now : ℕ)
    (hdet : st.detected = true) (hflag : d.getD 0 0 &&& 0x80 ≠ 0) :
    (temperature st { ctrl_meas := some c, status := [some d] } now).1 =
      AccResult.val (temperature_claim (read24 [d.getD 5 0, d.getD 6 0, d.getD 7 0] / 16)
        (st.temp_calibration.getD 0 0) (st.temp_calibration.getD 1 0)
        (st.temp_calibration.getD 2 0)) := by
  have hpr := perform_reading_ok st c d now hdet hflag
  simp [temperature, hpr, temp_calc, reading_state, temperature_claim, pow_two]

theorem temperature_accessor_formula_witness :
    st0.detected = true ∧ d0.getD 0 0 &&& 0x80 ≠ 0 ∧
    (temperature st0 { ctrl_meas := some 0x54, status := [some d0] } 7).1 =
      AccResult.val (temperature_claim (read24 [d0.getD 5 0, d0.getD 6 0, d0.getD 7 0] / 16)
        (st0.temp_calibration.getD 0 0) (st0.temp_calibration.getD 1 0)
        (st0.temp_calibration.getD 2 0)) :=
  ⟨rfl, by decide, temperature_accessor_formula st0 0x54 d0 7 rfl (by decide)⟩

/-- C5 counterexample: the decode does not draw on 37 bytes only.  Two
41-byte inputs that agree on their first 38 bytes — in particular on the
whole byte range [1:38] that 37 bytes after the dropped leading byte
would span — still decode differently, because the unpacked format is 38
bytes wide and byte 38 feeds the last gas coefficient. -/
theorem read_calibration_reads_byte_38 :
    calibA.length = 41 ∧ calibB.length = 41 ∧
    calibA.take 38 = calibB.take 38 ∧
    read_calibration calibA ≠ read_calibration calibB := by
  refine ⟨by decide, by decide, by decide, ?_⟩
  intro h
  have h2 : (read_calibration calibA).gas_calibration =
      (read_calibration calibB).gas_calibration := by rw [h]
  have hA : (read_calibration calibA).gas_calibration = [0, 0, 0] := rfl
  have hB : (read_calibration calibB).gas_calibration = [0, 0, 1] := rfl
  rw [hA, hB] at h2
  norm_num at h2

/-- C5 amended: on every 41-byte calibration input (25-byte block then
16-byte block) the decode drops one leading byte, unpacks 27 fixed-width
signed/unsigned fields from the 38 bytes of range [1:39], selects the
fixed index lists into the four coefficient groups, and applies the
humidity fix-up in the stated order: second element scaled by 16 then
incremented by the low nibble of the first, after which the first is
divided by 16. -/
theorem read_calibration_layout (c : List ℕ) (_h : c.length = 41) :
    read_calibration c = read_calibration_claim c := rfl

theorem read_calibration_layout_witness :
    calibA.length = 41 ∧ read_calibration calibA = read_calibration_claim calibA :=
  ⟨by decide, read_calibration_layout calibA (by decide)⟩

/-- C7: in every successful acquisition cycle t_fine is derived from that
cycle's raw temperature code before compensation runs; the value the
pressure and humidity accessors return is the compensation formula over
the freshly written state, and a stale t_fine left from an earlier cycle
has no influence on either accessor. -/
theorem t_fine_same_cycle (st : State) (c : ℕ) (d : List ℕ) (now : ℕ) (z : ℤ)
    (hdet : st.detected = true) (hflag : d.getD 0 0 &&& 0x80 ≠ 0) :
    ((perform_reading st { ctrl_meas := some c, status := [some d] } now).2.1).t_fine =
      t_fine_from st.temp_calibration d ∧
    (pressure { st with t_fine := z } { ctrl_meas := some c, status := [some d] } now).1 =
      (pressure st { ctrl_meas := some c, status := [some d] } now).1 ∧
    (humidity { st with t_fine := z } { ctrl_meas := some c, status := [some d] } now).1 =
      (humidity st { ctrl_meas := some c, status := [some d] } now).1 ∧
    (pressure st { ctrl_meas := some c, status := [some d] } now).1 =
      AccResult.val (pressure_policy (pressure_raw (reading_state st d now)) st.last_pres).1 ∧
    (humidity st { ctrl_meas := some c, status := [some d] } now).1 =
      AccResult.val (humidity_calc (reading_state st d now)) := by
  have hpr := perform_reading_ok st c d now hdet hflag
  have hpr2 : perform_reading { st with t_fine := z }
      { ctrl_meas := some c, status := [some d] } now =
      (PRResult.ok, reading_state st d now, perform_reading_trace st c 1) :=
    perform_reading_ok { st with t_fine := z } c d now hdet hflag
  refine ⟨?_, ?_, ?_, ?_, ?_⟩
  · simp [hpr, reading_state, t_fine_from]
  · simp [pressure, hpr, hpr2]
  · simp [humidity, hpr, hpr2]
  · simp [pressure, hpr, reading_state]
  · simp [humidity, hpr]

theorem t_fine_same_cycle_witness :
    st0.detected = true ∧ d0.getD 0 0 &&& 0x80 ≠ 0 ∧
    ((perform_reading st0 { ctrl_meas := some 0x54, status := [some d0] } 7).2.1).t_fine =
      t_fine_from st0.temp_calibration d0 ∧
    (pressure { st0 with t_fine := 999 } { ctrl_meas := some 0x54, status := [some d0] } 7).1 =
      (pressure st0 { ctrl_meas := some 0x54, status := [some d0] } 7).1 := by
  refine ⟨rfl, by decide, ?_, ?_⟩
  · exact (t_fine_same_cycle st0 0x54 d0 7 999 rfl (by decide)).1
  · exact (t_fine_same_cycle st0 0x54 d0 7 999 rfl (by decide)).2.1

/-- C10: a successful acquisition stores as gas_range the last data byte
masked with 0x0F; that value is below 16, the length of both fixed
lookup tables of the gas-resistance computation, so the indexing the gas
accessor performs is in bounds. -/
theorem gas_range_bounds (st : State) (c : ℕ) (d : List ℕ) (now : ℕ)
    (hdet : st.detected = true) (hflag : d.getD 0 0 &&& 0x80 ≠ 0) :
    ((perform_reading st { ctrl_meas := some c, status := [some d] } now).2.1).gas_range =
      d.getD 14 0 &&& 0x0F ∧
    ((perform_reading st { ctrl_meas := some c, status := [some d] } now).2.1).gas_range <
      LOOKUP_TABLE_1.length ∧
    ((perform_reading st { ctrl_meas := some c, status := [some d] } now).2.1).gas_range <
      LOOKUP_TABLE_2.length ∧
    (gas st { ctrl_meas := some c, status := [some d] } now).1 =
      AccResult.val ((gas_calc (reading_state st d now) : ℚ)) := by
  have hpr := perform_reading_ok st c d now hdet hflag
  have hmask : d.getD 14 0 &&& 0x0F < 16 :=
    Nat.lt_succ_of_le Nat.and_le_right
  have hgr : ((perform_reading st { ctrl_meas := some c, status := [some d] } now).2.1).gas_range =
      d.getD 14 0 &&& 0x0F := by
    simp [hpr, reading_state]
  refine ⟨hgr, ?_, ?_, ?_⟩
  · rw [hgr]
    simpa [LOOKUP_TABLE_1] using hmask
  · rw [hgr]
    simpa [LOOKUP_TABLE_2] using hmask
  · simp [gas, hpr]

theorem gas_range_bounds_witness :
    st0.detected = true ∧ d0.getD 0 0 &&& 0x80 ≠ 0 ∧
    ((perform_reading st0 { ctrl_meas := some 0x54, status := [some d0] } 7).2.1).gas_range =
      d0.getD 14 0 &&& 0x0F ∧
    ((perform_reading st0 { ctrl_meas := some 0x54, status := [some d0] } 7).2.1).gas_range <
      LOOKUP_TABLE_1.length := by
  refine ⟨rfl, by decide, ?_, ?_⟩
  · exact (gas_range_bounds st0 0x54 d0 7 rfl (by decide)).1
  · exact (gas_range_bounds st0 0x54 d0 7 rfl (by decide)).2.1

end BME680
